import Mathlib

/-!
Verification of oauth-cli-kit (Python) against its natural-language
specification, via a shallow embedding of the relevant source files
(`src/oauth_cli_kit/storage.py`, `src/oauth_cli_kit/flow.py`, and the
PKCE helpers) into Lean 4.

Conventions of the embedding:
- JSON values are modelled by the inductive `JsonValue`; JSON objects are
  association lists with the first occurrence of a key winning (parsed
  JSON objects have unique keys, so this matches `json.loads`).
- A file on disk is modelled by `FileData`: absent, present-but-unparseable
  (`json.loads` raises), or a parsed JSON value.
- Machine time is passed in explicitly as epoch milliseconds (`Int`),
  one value per call of `time.time()` in the source.
- Python exceptions are modelled with `Option`/`Except`.
-/

namespace OAuthCliKit

/-- JSON values as produced by `json.loads` (numbers restricted to the
integers actually used by the cache-file schema; arrays do not occur in
any file format of this repository and are omitted). -/
inductive JsonValue where
  | null
  | bool (b : Bool)
  | num (n : Int)
  | str (s : String)
  | obj (fields : List (String × JsonValue))

/-- Lookup of a key in a JSON object's field list (Python `dict` access;
keys of parsed JSON objects are unique). -/
def jget : List (String × JsonValue) → String → Option JsonValue
  | [], _ => none
  | (k, v) :: rest, key => if k = key then some v else jget rest key

/-- Python truthiness of a JSON value (`if not access: ...`). -/
def pyTruthy : JsonValue → Bool
  | JsonValue.null => false
  | JsonValue.bool b => b
  | JsonValue.num n => decide (n ≠ 0)
  | JsonValue.str s => decide (s ≠ "")
  | JsonValue.obj l => !l.isEmpty

/-- Python `int(x)` on a JSON value: ints pass through, booleans map to
0/1, numeric strings are parsed, anything else raises (modelled `none`). -/
def pyInt : JsonValue → Option Int
  | JsonValue.num n => some n
  | JsonValue.bool b => some (if b then 1 else 0)
  | JsonValue.str s => s.toInt?
  | _ => none

/-- Python `str(x)` on a JSON value.  Only string values are reachable in
the flows covered by the spec; the remaining cases are a coarse rendering. -/
def pyStr : JsonValue → String
  | JsonValue.str s => s
  | JsonValue.num n => toString n
  | JsonValue.bool true => "True"
  | JsonValue.bool false => "False"
  | JsonValue.null => "None"
  | JsonValue.obj _ => "object"

/-- `OAuthToken` from `src/oauth_cli_kit/models.py` (lines 23-30):
access string, refresh string, absolute expiry in epoch milliseconds,
optional account id. -/
structure OAuthToken where
  access : String
  refresh : String
  expires : Int
  account_id : Option String
deriving DecidableEq

/-- The observable content of one file path: the file is absent, exists
but is not parseable JSON, or parses to a JSON value. -/
inductive FileData where
  | absent
  | invalid
  | json (j : JsonValue)

/-- The file-system state seen by `FileTokenStorage`
(`src/oauth_cli_kit/storage.py`): the store's own cache file, the sibling
Codex CLI auth file at `~/.codex/auth.json`, and that file's modification
time in epoch milliseconds (`none` when `stat()` fails). -/
structure StoreState where
  cache : FileData
  codex : FileData
  codexMtimeMs : Option Int

/-- `_load_token_file` (`src/oauth_cli_kit/storage.py` lines 41-53): read
and JSON-parse the cache file, extract `access`, `refresh`, `expires`
(via `int(...)`) and the optional `account_id`; any failure yields no
token instead of raising.  Field types follow the declared dataclass
types of `OAuthToken` (str/str/int/str-or-None). -/
def load_token_file : FileData → Option OAuthToken
  | FileData.absent => none
  | FileData.invalid => none
  | FileData.json (JsonValue.obj fields) =>
    match jget fields "access", jget fields "refresh",
          (jget fields "expires").bind pyInt with
    | some (JsonValue.str a), some (JsonValue.str r), some e =>
      some ⟨a, r, e,
        match jget fields "account_id" with
        | some (JsonValue.str s) => some s
        | _ => none⟩
    | _, _, _ => none
  | FileData.json _ => none

/-- `_save_token_file` (`src/oauth_cli_kit/storage.py` lines 56-74): the
JSON payload written to the cache file.  The `account_id` key is added
only when `token.account_id` is truthy, i.e. present and non-empty. -/
def save_token_payload (t : OAuthToken) : JsonValue :=
  JsonValue.obj
    ([("access", JsonValue.str t.access),
      ("refresh", JsonValue.str t.refresh),
      ("expires", JsonValue.num t.expires)] ++
     (match t.account_id with
      | some a => if a = "" then [] else [("account_id", JsonValue.str a)]
      | none => []))

/-- The key list of a JSON object payload (top-level keys of the cache
file). -/
def payloadKeys : JsonValue → List String
  | JsonValue.obj fields => fields.map Prod.fst
  | _ => []

/-- `_try_import_codex_cli_token` (`src/oauth_cli_kit/storage.py` lines
76-102): read `~/.codex/auth.json`; require truthy
`tokens.access_token` / `tokens.refresh_token` / `tokens.account_id`;
synthesize the expiry as the source file's mtime in milliseconds plus one
hour (falling back to `now` plus one hour when `stat()` fails); write the
translated token into this store's own cache file and return it.  All
failures are swallowed and yield no token. -/
def try_import_codex_cli_token (nowMs : Int) (s : StoreState) :
    Option OAuthToken × StoreState :=
  match s.codex with
  | FileData.json (JsonValue.obj fields) =>
    let tokensVal : JsonValue :=
      match jget fields "tokens" with
      | some v => if pyTruthy v then v else JsonValue.obj []
      | none => JsonValue.obj []
    match tokensVal with
    | JsonValue.obj tf =>
      match jget tf "access_token", jget tf "refresh_token",
            jget tf "account_id" with
      | some av, some rv, some iv =>
        if pyTruthy av && pyTruthy rv && pyTruthy iv then
          let expires : Int :=
            match s.codexMtimeMs with
            | some m => m + 60 * 60 * 1000
            | none => nowMs + 60 * 60 * 1000
          let tok : OAuthToken := ⟨pyStr av, pyStr rv, expires, some (pyStr iv)⟩
          (some tok, { s with cache := FileData.json (save_token_payload tok) })
        else (none, s)
      | _, _, _ => (none, s)
    | _ => (none, s)
  | _ => (none, s)

/-- `FileTokenStorage.load` (`src/oauth_cli_kit/storage.py` lines
123-130): return the parsed cache-file token when there is one; otherwise,
when `import_codex_cli` is enabled, fall back to the sibling-CLI import
(which may write the cache file as a side effect).  Returns the loaded
token together with the resulting file-system state. -/
def store_load (importEnabled : Bool) (nowMs : Int) (s : StoreState) :
    Option OAuthToken × StoreState :=
  match load_token_file s.cache with
  | some t => (some t, s)
  | none => if importEnabled then try_import_codex_cli_token nowMs s else (none, s)

/-- The observable outcome of one `get_token` call: the returned token or
the raised error, whether the cross-process lock was acquired, how many
network refresh calls were made, and the tokens passed to
`storage.save` by the call itself. -/
structure GetTokenResult where
  result : Except String OAuthToken
  lockAcquired : Bool
  refreshCalls : Nat
  saves : List OAuthToken

/-- `get_token` (`src/oauth_cli_kit/flow.py` lines 91-123).  The three
`storage.load()` call sites observe file-system snapshots `s1`, `s2`,
`s3` (other processes may write between them); `now1` and `now2` are the
two `time.time()` readings (lines 103 and 111); a refresh either returns
the response fields `(access_token, refresh_token, expires_in)` —
`Except.ok` — or raises — `Except.error`; `nowR` is the `time.time()`
reading inside `_refresh_token` (line 86) and `refreshAcct` the decoded
account id of the refreshed access token. -/
def get_token (importEnabled : Bool) (s1 s2 s3 : StoreState)
    (now1 now2 nowR : Int) (refreshResp : Except String (String × String × Int))
    (refreshAcct : Option String) (minTtl : Int) : GetTokenResult :=
  match (store_load importEnabled now1 s1).1 with
  | none => ⟨Except.error "OAuth credentials not found. Please run the login command.",
             false, 0, []⟩
  | some t0 =>
    if t0.expires - now1 > minTtl * 1000 then ⟨Except.ok t0, false, 0, []⟩
    else
      let t := ((store_load importEnabled now2 s2).1).getD t0
      if t.expires - now2 > minTtl * 1000 then ⟨Except.ok t, true, 0, []⟩
      else
        match refreshResp with
        | Except.ok (a, r, ei) =>
          let refreshed : OAuthToken := ⟨a, r, nowR + ei * 1000, refreshAcct⟩
          ⟨Except.ok refreshed, true, 1, [refreshed]⟩
        | Except.error e =>
          match (store_load importEnabled now2 s3).1 with
          | some latest =>
            if latest.expires - now2 > 0 then ⟨Except.ok latest, true, 1, []⟩
            else ⟨Except.error e, true, 1, []⟩
          | none => ⟨Except.error e, true, 1, []⟩

/-- C2: a stored token whose remaining TTL exceeds `min_ttl_seconds * 1000`
milliseconds is returned unchanged by `get_token`, with no lock
acquisition, no network call, no save, and the load it performs leaves the
file-system state unchanged. -/
theorem c2_fast_path_returns_cached (importEnabled : Bool)
    (s1 s2 s3 : StoreState) (now1 now2 nowR : Int)
    (refreshResp : Except String (String × String × Int))
    (refreshAcct : Option String) (minTtl : Int) (t : OAuthToken)
    (hload : load_token_file s1.cache = some t)
    (httl : t.expires - now1 > minTtl * 1000) :
    get_token importEnabled s1 s2 s3 now1 now2 nowR refreshResp refreshAcct minTtl =
      ⟨Except.ok t, false, 0, []⟩ ∧
    (store_load importEnabled now1 s1).2 = s1 := by
  have hsl : store_load importEnabled now1 s1 = (some t, s1) := by
    simp [store_load, hload]
  constructor
  · simp [get_token, hsl, httl]
  · simp [hsl]

/-- Concrete witness state for the fast path: a cache file holding a token
that expires at 3 600 000 ms, read at time 0 with `min_ttl` 60 s. -/
def c2state : StoreState :=
  ⟨FileData.json (save_token_payload ⟨"a", "r", 3600000, none⟩),
   FileData.absent, none⟩

theorem c2_fast_path_witness :
    get_token true c2state c2state c2state 0 0 0
        (Except.error "unused") none 60 =
      ⟨Except.ok ⟨"a", "r", 3600000, none⟩, false, 0, []⟩ ∧
    (store_load true 0 c2state).2 = c2state :=
  c2_fast_path_returns_cached true c2state c2state c2state 0 0 0
    (Except.error "unused") none 60 ⟨"a", "r", 3600000, none⟩
    (by decide) (by decide)

/-- C3 (amended): when the cached token's TTL is at or below
`min_ttl_seconds` both before and after acquiring the lock, `get_token`
acquires the lock, performs exactly one refresh call, saves exactly the
refreshed token, and returns it; the refreshed token carries the refresh
response's `access_token` and `refresh_token` and expires at the refresh-time
clock plus `expires_in * 1000` — which is strictly later than the replaced
token's expiry provided `expires_in` exceeds `min_ttl_seconds` and the clock
did not run backwards between the locked re-read and the refresh. -/
theorem c3_refresh_replaces_token (importEnabled : Bool)
    (s1 s2 s3 : StoreState) (now1 now2 nowR : Int) (a r : String) (ei : Int)
    (refreshAcct : Option String) (minTtl : Int) (t0 t : OAuthToken)
    (h1 : load_token_file s1.cache = some t0)
    (h2 : ¬ t0.expires - now1 > minTtl * 1000)
    (h3 : ((store_load importEnabled now2 s2).1).getD t0 = t)
    (h4 : ¬ t.expires - now2 > minTtl * 1000)
    (h5 : minTtl < ei) (h6 : now2 ≤ nowR) :
    get_token importEnabled s1 s2 s3 now1 now2 nowR (Except.ok (a, r, ei))
        refreshAcct minTtl =
      ⟨Except.ok ⟨a, r, nowR + ei * 1000, refreshAcct⟩, true, 1,
       [⟨a, r, nowR + ei * 1000, refreshAcct⟩]⟩ ∧
    t.expires < nowR + ei * 1000 := by
  have hsl : store_load importEnabled now1 s1 = (some t0, s1) := by
    simp [store_load, h1]
  constructor
  · simp [get_token, hsl, h2, h3, h4]
  · have hle : t.expires ≤ now2 + minTtl * 1000 := by omega
    have hei : minTtl * 1000 < ei * 1000 := by omega
    omega

/-- The token stored in the file system for the C3 counterexample: it
expires at 60 000 ms. -/
def c3old : OAuthToken := ⟨"old", "old_refresh", 60000, none⟩

/-- File-system state holding `c3old` in the cache file, no sibling file. -/
def c3state : StoreState :=
  ⟨FileData.json (save_token_payload c3old), FileData.absent, none⟩

/-- C3 counterexample: at time 0 with `min_ttl = 60`, the cached token's
TTL (60 000 ms) is at the threshold, so `get_token` refreshes; the refresh
response carries `expires_in = 60`, so the refreshed and persisted token
expires at 60 000 ms as well — not strictly later than the token it
replaced, contradicting the claim's "strictly later expires". -/
theorem c3_expires_not_strictly_later :
    load_token_file c3state.cache = some c3old ∧
    ¬ c3old.expires - 0 > 60 * 1000 ∧
    get_token true c3state c3state c3state 0 0 0
        (Except.ok ("new_access", "new_refresh", 60)) none 60 =
      ⟨Except.ok ⟨"new_access", "new_refresh", 60000, none⟩, true, 1,
       [⟨"new_access", "new_refresh", 60000, none⟩]⟩ ∧
    ¬ c3old.expires < (60000 : Int) :=
  ⟨rfl, by decide, rfl, by decide⟩

theorem c3_refresh_replaces_token_witness :
    get_token true c3state c3state c3state 0 0 0
        (Except.ok ("new_access", "new_refresh", 3600)) none 60 =
      ⟨Except.ok ⟨"new_access", "new_refresh", 3600000, none⟩, true, 1,
       [⟨"new_access", "new_refresh", 3600000, none⟩]⟩ ∧
    c3old.expires < (3600000 : Int) :=
  c3_refresh_replaces_token true c3state c3state c3state 0 0 0
    "new_access" "new_refresh" 3600 none 60 c3old c3old
    rfl (by decide) (by decide) (by decide) (by decide) (by decide)

/-- C4: when the refresh call raises, `get_token` re-reads the store once
more; a re-read token still valid at the lock-time clock reading is
returned and the refresh error suppressed; otherwise the refresh error
propagates.  In both cases the failed attempt saves nothing. -/
theorem c4_refresh_failure_rescue (importEnabled : Bool)
    (s1 s2 s3 : StoreState) (now1 now2 nowR : Int) (e : String)
    (refreshAcct : Option String) (minTtl : Int) (t0 : OAuthToken)
    (h1 : load_token_file s1.cache = some t0)
    (h2 : ¬ t0.expires - now1 > minTtl * 1000)
    (h4 : ¬ (((store_load importEnabled now2 s2).1).getD t0).expires - now2 >
            minTtl * 1000) :
    (∀ latest, (store_load importEnabled now2 s3).1 = some latest →
      (latest.expires - now2 > 0 →
        get_token importEnabled s1 s2 s3 now1 now2 nowR (Except.error e)
            refreshAcct minTtl = ⟨Except.ok latest, true, 1, []⟩) ∧
      (¬ latest.expires - now2 > 0 →
        get_token importEnabled s1 s2 s3 now1 now2 nowR (Except.error e)
            refreshAcct minTtl = ⟨Except.error e, true, 1, []⟩)) ∧
    ((store_load importEnabled now2 s3).1 = none →
      get_token importEnabled s1 s2 s3 now1 now2 nowR (Except.error e)
          refreshAcct minTtl = ⟨Except.error e, true, 1, []⟩) := by
  have hsl : store_load importEnabled now1 s1 = (some t0, s1) := by
    simp [store_load, h1]
  refine ⟨fun latest hlatest => ⟨fun hok => ?_, fun hstale => ?_⟩, fun hnone => ?_⟩
  · simp [get_token, hsl, h2, h4, hlatest, hok]
  · simp [get_token, hsl, h2, h4, hlatest, hstale]
  · simp [get_token, hsl, h2, h4, hnone]

/-- File-system state for the C4 witness: the cache file holds an expired
token (expiry 50 000 ms, read at time 100 000 ms). -/
def c4state : StoreState :=
  ⟨FileData.json (save_token_payload ⟨"stale", "stale_refresh", 50000, none⟩),
   FileData.absent, none⟩

theorem c4_refresh_failure_rescue_witness :
    (∀ latest, (store_load true 100000 c4state).1 = some latest →
      (latest.expires - 100000 > 0 →
        get_token true c4state c4state c4state 100000 100000 100000
            (Except.error "Token refresh failed: 500 fake") none 60 =
          ⟨Except.ok latest, true, 1, []⟩) ∧
      (¬ latest.expires - 100000 > 0 →
        get_token true c4state c4state c4state 100000 100000 100000
            (Except.error "Token refresh failed: 500 fake") none 60 =
          ⟨Except.error "Token refresh failed: 500 fake", true, 1, []⟩)) ∧
    ((store_load true 100000 c4state).1 = none →
      get_token true c4state c4state c4state 100000 100000 100000
          (Except.error "Token refresh failed: 500 fake") none 60 =
        ⟨Except.error "Token refresh failed: 500 fake", true, 1, []⟩) :=
  c4_refresh_failure_rescue true c4state c4state c4state 100000 100000 100000
    "Token refresh failed: 500 fake" none 60 ⟨"stale", "stale_refresh", 50000, none⟩
    rfl (by decide) (by decide)

/-- C7 (amended): saving a token and re-loading the written payload gives
back an equal token, with the cache file's keys exactly
`access, refresh, expires` when there is no account id and additionally
`account_id` when one is present — provided a present account id is
non-empty (an empty account id is falsy in Python and is dropped on save). -/
theorem c7_save_load_roundtrip (t : OAuthToken) :
    (t.account_id = none →
      load_token_file (FileData.json (save_token_payload t)) = some t ∧
      payloadKeys (save_token_payload t) = ["access", "refresh", "expires"]) ∧
    (∀ a, t.account_id = some a → a ≠ "" →
      load_token_file (FileData.json (save_token_payload t)) = some t ∧
      payloadKeys (save_token_payload t) =
        ["access", "refresh", "expires", "account_id"]) := by
  obtain ⟨ac, rf, ex, id?⟩ := t
  constructor
  · rintro rfl
    exact ⟨rfl, rfl⟩
  · rintro a rfl ha
    simp only [save_token_payload, load_token_file, payloadKeys, jget, pyInt,
      if_neg ha]
    simp [jget]

theorem c7_save_load_roundtrip_witness :
    (load_token_file (FileData.json (save_token_payload ⟨"a", "r", 123, some "acct"⟩)) =
        some ⟨"a", "r", 123, some "acct"⟩ ∧
      payloadKeys (save_token_payload ⟨"a", "r", 123, some "acct"⟩) =
        ["access", "refresh", "expires", "account_id"]) :=
  (c7_save_load_roundtrip ⟨"a", "r", 123, some "acct"⟩).2 "acct" rfl (by decide)

/-- C7 counterexample: a token whose account id is present but empty is
saved without the `account_id` key, and re-loading yields a token with no
account id — not equal to the saved one. -/
theorem c7_empty_account_id_dropped :
    payloadKeys (save_token_payload ⟨"a", "r", 123, some ""⟩) =
      ["access", "refresh", "expires"] ∧
    load_token_file (FileData.json (save_token_payload ⟨"a", "r", 123, some ""⟩)) =
      some ⟨"a", "r", 123, none⟩ ∧
    ¬ load_token_file (FileData.json (save_token_payload ⟨"a", "r", 123, some ""⟩)) =
        some ⟨"a", "r", 123, some ""⟩ :=
  ⟨rfl, rfl, by decide⟩

/-- C8 (amended): a cache file that is not valid JSON, or whose JSON lacks
one of the required keys, yields no token from `_load_token_file`; hence
`load()` returns no token when the sibling-CLI import is disabled, and
likewise when it is enabled but the sibling auth file is absent. -/
theorem c8_invalid_cache_loads_none (s : StoreState) (now : Int)
    (h : s.cache = FileData.invalid ∨
      ∃ fields, s.cache = FileData.json (JsonValue.obj fields) ∧
        (jget fields "access" = none ∨ jget fields "refresh" = none ∨
         jget fields "expires" = none)) :
    load_token_file s.cache = none ∧
    (store_load false now s).1 = none ∧
    (s.codex = FileData.absent → (store_load true now s).1 = none) := by
  have hload : load_token_file s.cache = none := by
    rcases h with h | ⟨fields, hc, hmiss⟩
    · rw [h]; rfl
    · rw [hc]
      rcases hmiss with hm | hm | hm
      · cases ha : jget fields "access" with
        | none => simp [load_token_file, ha]
        | some v => rw [hm] at ha; exact absurd ha (by simp)
      · cases ha : jget fields "access" with
        | none => simp [load_token_file, ha]
        | some v => cases v <;> simp [load_token_file, ha, hm]
      · cases ha : jget fields "access" with
        | none => simp [load_token_file, ha]
        | some v =>
          cases hr : jget fields "refresh" with
          | none => cases v <;> simp [load_token_file, ha, hr]
          | some w => cases v <;> cases w <;> simp [load_token_file, ha, hr, hm]
  refine ⟨hload, ?_, fun hcodex => ?_⟩
  · simp [store_load, hload]
  · simp [store_load, hload, try_import_codex_cli_token, hcodex]

/-- A store whose cache file exists but is not parseable JSON, with no
sibling auth file. -/
def c8badState : StoreState := ⟨FileData.invalid, FileData.absent, none⟩

theorem c8_invalid_cache_loads_none_witness :
    load_token_file c8badState.cache = none ∧
    (store_load false 0 c8badState).1 = none ∧
    (c8badState.codex = FileData.absent → (store_load true 0 c8badState).1 = none) :=
  c8_invalid_cache_loads_none c8badState 0 (Or.inl rfl)

/-- The sibling Codex CLI auth file content used by the C8 counterexample:
a well-formed `tokens` object. -/
def c8codexJson : JsonValue :=
  JsonValue.obj [("tokens", JsonValue.obj
    [("access_token", JsonValue.str "codex_access"),
     ("refresh_token", JsonValue.str "codex_refresh"),
     ("account_id", JsonValue.str "codex_acct")])]

/-- A store whose cache file is corrupt while the sibling auth file is
present and well-formed (mtime 5 000 000 ms). -/
def c8importState : StoreState :=
  ⟨FileData.invalid, FileData.json c8codexJson, some 5000000⟩

/-- C8 counterexample: with the sibling-CLI import enabled (the default),
a cache file holding invalid JSON does NOT make `load()` return "no
token": the token is imported from the sibling auth file instead. -/
theorem c8_invalid_cache_can_import :
    c8importState.cache = FileData.invalid ∧
    (store_load true 0 c8importState).1 =
      some ⟨"codex_access", "codex_refresh", 8600000, some "codex_acct"⟩ ∧
    (store_load true 0 c8importState).1 ≠ none :=
  ⟨rfl, rfl, by decide⟩

/-- C9 (amended): when the store's own cache file yields no token and the
sibling CLI's auth file carries non-empty `tokens.access_token`,
`tokens.refresh_token` and `tokens.account_id`, `load()` returns a token
in this store's schema whose expiry is the sibling file's mtime in
milliseconds plus the fixed one-hour default lifetime, writing that token
into the store's own cache file; and whenever any of the three fields is
missing, nothing is imported and the state is unchanged. -/
theorem c9_codex_import (s : StoreState) (now m : Int)
    (f tf : List (String × JsonValue)) (a r i : String)
    (hc : load_token_file s.cache = none)
    (hj : s.codex = FileData.json (JsonValue.obj f))
    (ht : jget f "tokens" = some (JsonValue.obj tf))
    (ha : jget tf "access_token" = some (JsonValue.str a)) (ha2 : a ≠ "")
    (hr : jget tf "refresh_token" = some (JsonValue.str r)) (hr2 : r ≠ "")
    (hi : jget tf "account_id" = some (JsonValue.str i)) (hi2 : i ≠ "")
    (hm : s.codexMtimeMs = some m) :
    store_load true now s =
      (some ⟨a, r, m + 60 * 60 * 1000, some i⟩,
       { s with cache :=
           FileData.json (save_token_payload ⟨a, r, m + 60 * 60 * 1000, some i⟩) }) ∧
    (∀ (s2 : StoreState) (now2 : Int) (f2 tf2 : List (String × JsonValue)),
      s2.codex = FileData.json (JsonValue.obj f2) →
      jget f2 "tokens" = some (JsonValue.obj tf2) →
      (jget tf2 "access_token" = none ∨ jget tf2 "refresh_token" = none ∨
       jget tf2 "account_id" = none) →
      try_import_codex_cli_token now2 s2 = (none, s2)) := by
  constructor
  · have htf2 : tf.isEmpty = false := by
      cases tf with
      | nil => exact absurd ha (by simp [jget])
      | cons hd tl => rfl
    simp [store_load, hc, try_import_codex_cli_token, hj, ht, htf2,
      ha, hr, hi, pyTruthy, ha2, hr2, hi2, hm, pyStr]
  · intro s2 now2 f2 tf2 hj2 ht2 hmiss
    rcases hmiss with hm2 | hm2 | hm2
    · cases hb : jget tf2 "access_token" with
      | none =>
        simp only [try_import_codex_cli_token, hj2, ht2]
        by_cases htr : pyTruthy (JsonValue.obj tf2) <;> simp [htr, hb, jget]
      | some v => rw [hm2] at hb; exact absurd hb (by simp)
    · cases hb : jget tf2 "access_token" with
      | none =>
        simp only [try_import_codex_cli_token, hj2, ht2]
        by_cases htr : pyTruthy (JsonValue.obj tf2) <;> simp [htr, hb, jget]
      | some v =>
        simp only [try_import_codex_cli_token, hj2, ht2]
        by_cases htr : pyTruthy (JsonValue.obj tf2) <;> simp [htr, hb, hm2, jget]
    · cases hb : jget tf2 "access_token" with
      | none =>
        simp only [try_import_codex_cli_token, hj2, ht2]
        by_cases htr : pyTruthy (JsonValue.obj tf2) <;> simp [htr, hb, jget]
      | some v =>
        cases hb2 : jget tf2 "refresh_token" with
        | none =>
          simp only [try_import_codex_cli_token, hj2, ht2]
          by_cases htr : pyTruthy (JsonValue.obj tf2) <;> simp [htr, hb, hb2, jget]
        | some w =>
          simp only [try_import_codex_cli_token, hj2, ht2]
          by_cases htr : pyTruthy (JsonValue.obj tf2) <;>
            simp [htr, hb, hb2, hm2, jget]


/-- A store with no cache file whose sibling auth file is well-formed
(mtime 5 000 000 ms). -/
def c9state : StoreState :=
  ⟨FileData.absent, FileData.json c8codexJson, some 5000000⟩

theorem c9_codex_import_witness :
    store_load true 0 c9state =
      (some ⟨"codex_access", "codex_refresh", 8600000, some "codex_acct"⟩,
       { c9state with cache :=
           FileData.json (save_token_payload
             ⟨"codex_access", "codex_refresh", 8600000, some "codex_acct"⟩) }) ∧
    (∀ (s2 : StoreState) (now2 : Int) (f2 tf2 : List (String × JsonValue)),
      s2.codex = FileData.json (JsonValue.obj f2) →
      jget f2 "tokens" = some (JsonValue.obj tf2) →
      (jget tf2 "access_token" = none ∨ jget tf2 "refresh_token" = none ∨
       jget tf2 "account_id" = none) →
      try_import_codex_cli_token now2 s2 = (none, s2)) :=
  c9_codex_import c9state 0 5000000 _ _ "codex_access" "codex_refresh" "codex_acct"
    rfl rfl rfl rfl (by decide) rfl (by decide) rfl (by decide) rfl

/-- Sibling auth file whose `tokens.access_token` is present but empty. -/
def c9emptyCodexJson : JsonValue :=
  JsonValue.obj [("tokens", JsonValue.obj
    [("access_token", JsonValue.str ""),
     ("refresh_token", JsonValue.str "codex_refresh"),
     ("account_id", JsonValue.str "codex_acct")])]

/-- A store with no cache file whose sibling auth file has an empty
`access_token` value. -/
def c9emptyState : StoreState :=
  ⟨FileData.absent, FileData.json c9emptyCodexJson, some 5000000⟩

/-- C9 counterexample: the sibling auth file's three token fields are all
present, yet nothing is imported because `access_token` is the empty
string (falsy in Python) — contradicting the claim that presence of the
three fields suffices for the import. -/
theorem c9_present_but_empty_not_imported :
    jget [("access_token", JsonValue.str ""),
          ("refresh_token", JsonValue.str "codex_refresh"),
          ("account_id", JsonValue.str "codex_acct")] "access_token" =
      some (JsonValue.str "") ∧
    try_import_codex_cli_token 0 c9emptyState = (none, c9emptyState) ∧
    (store_load true 0 c9emptyState).1 = none :=
  ⟨rfl, rfl, rfl⟩

/-- C10: `FileTokenStorage.load` falls back to the sibling-CLI import
whenever reading the cache file yields no token — whether the file is
absent, invalid JSON, or missing required keys — so with the import
enabled the whole `load()` call behaves exactly like the import. -/
theorem c10_import_attempted_when_no_token (s : StoreState) (now : Int)
    (h : load_token_file s.cache = none) :
    store_load true now s = try_import_codex_cli_token now s := by
  simp [store_load, h]

theorem c10_import_attempted_when_no_token_witness :
    store_load true 0 c8importState = try_import_codex_cli_token 0 c8importState :=
  c10_import_attempted_when_no_token c8importState 0 rfl

/-! PKCE generator.  `src/oauth_cli_kit/pkce.py` is imported by
`src/oauth_cli_kit/flow.py` but is not present in the source tree, so the
PKCE pair generator is modelled from the spec (§4.1, §8).  SHA-256
(FIPS 180-4) and unpadded base64url (RFC 4648 §5) are implemented
concretely, on bytes modelled as `Nat` reduced mod 256. -/

/-- 32-bit truncation. -/
def w32 (n : Nat) : Nat := n % 4294967296

/-- 32-bit right rotation. -/
def rotr32 (x k : Nat) : Nat := w32 ((x >>> k) ||| (x <<< (32 - k)))

def smallSigma0 (x : Nat) : Nat := (rotr32 x 7) ^^^ (rotr32 x 18) ^^^ (x >>> 3)

def smallSigma1 (x : Nat) : Nat := (rotr32 x 17) ^^^ (rotr32 x 19) ^^^ (x >>> 10)

def bigSigma0 (x : Nat) : Nat := (rotr32 x 2) ^^^ (rotr32 x 13) ^^^ (rotr32 x 22)

def bigSigma1 (x : Nat) : Nat := (rotr32 x 6) ^^^ (rotr32 x 11) ^^^ (rotr32 x 25)

/-- The 64 SHA-256 round constants (FIPS 180-4 §4.2.2, written in
decimal). -/
def sha256K : List Nat :=
  [1116352408, 1899447441, 3049323471, 3921009573, 961987163, 1508970993,
   2453635748, 2870763221, 3624381080, 310598401, 607225278, 1426881987,
   1925078388, 2162078206, 2614888103, 3248222580, 3835390401, 4022224774,
   264347078, 604807628, 770255983, 1249150122, 1555081692, 1996064986,
   2554220882, 2821834349, 2952996808, 3210313671, 3336571891, 3584528711,
   113926993, 338241895, 666307205, 773529912, 1294757372, 1396182291,
   1695183700, 1986661051, 2177026350, 2456956037, 2730485921, 2820302411,
   3259730800, 3345764771, 3516065817, 3600352804, 4094571909, 275423344,
   430227734, 506948616, 659060556, 883997877, 958139571, 1322822218,
   1537002063, 1747873779, 1955562222, 2024104815, 2227730452, 2361852424,
   2428436474, 2756734187, 3204031479, 3329325298]

/-- The SHA-256 initial hash value (FIPS 180-4 §5.3.3, written in
decimal). -/
def sha256H0 : List Nat :=
  [1779033703, 3144134277, 1013904242, 2773480762, 1359893119, 2600822924,
   528734635, 1541459225]

/-- Big-endian 8-byte encoding of a length in bits. -/
def be64 (n : Nat) : List Nat :=
  [(n >>> 56) % 256, (n >>> 48) % 256, (n >>> 40) % 256, (n >>> 32) % 256,
   (n >>> 24) % 256, (n >>> 16) % 256, (n >>> 8) % 256, n % 256]

/-- SHA-256 message padding: append `0x80`, zeros to 56 mod 64, then the
bit length. -/
def sha256Pad (msg : List Nat) : List Nat :=
  let zeros := (120 - (msg.length + 1) % 64) % 64
  msg ++ 0x80 :: List.replicate zeros 0 ++ be64 (msg.length * 8)

/-- Split a byte list into 64-byte blocks. -/
def chunks64 (l : List Nat) : List (List Nat) :=
  if _h : l.length = 0 then []
  else l.take 64 :: chunks64 (l.drop 64)
termination_by l.length
decreasing_by simp [List.length_drop]; omega

/-- Big-endian 32-bit words from bytes. -/
def be32words : List Nat → List Nat
  | b0 :: b1 :: b2 :: b3 :: rest =>
    (((b0 % 256) <<< 24) ||| ((b1 % 256) <<< 16) ||| ((b2 % 256) <<< 8) ||| (b3 % 256)) ::
      be32words rest
  | _ => []

/-- The 64-entry SHA-256 message schedule of one block. -/
def buildW (ws : List Nat) : List Nat :=
  (List.range 64).foldl (fun acc i =>
    if i < 16 then acc ++ [ws.getD i 0]
    else acc ++ [w32 (smallSigma1 (acc.getD (i - 2) 0) + acc.getD (i - 7) 0 +
                      smallSigma0 (acc.getD (i - 15) 0) + acc.getD (i - 16) 0)]) []

/-- One SHA-256 compression round on the 8-word working state. -/
def compressRound (k w : Nat) (st : List Nat) : List Nat :=
  match st with
  | [a, b, c, d, e, f, g, h] =>
    let ch := (e &&& f) ^^^ ((e ^^^ 0xffffffff) &&& g)
    let t1 := w32 (h + bigSigma1 e + ch + k + w)
    let maj := (a &&& b) ^^^ (a &&& c) ^^^ (b &&& c)
    let t2 := w32 (bigSigma0 a + maj)
    [w32 (t1 + t2), a, b, c, w32 (d + t1), e, f, g]
  | other => other

/-- Process one 64-byte block. -/
def processBlock (st block : List Nat) : List Nat :=
  let w := buildW (be32words block)
  let fin := (List.range 64).foldl
    (fun s i => compressRound (sha256K.getD i 0) (w.getD i 0) s) st
  List.zipWith (fun x y => w32 (x + y)) st fin

/-- SHA-256 of a byte list, as a 32-byte list. -/
def sha256 (msg : List Nat) : List Nat :=
  let final := (chunks64 (sha256Pad msg)).foldl processBlock sha256H0
  (final.map (fun v => [(v >>> 24) % 256, (v >>> 16) % 256, (v >>> 8) % 256, v % 256])).flatten

/-- The base64url alphabet (RFC 4648 §5); it does not contain a padding
character. -/
def b64urlChars : List Char :=
  "ABCDEFGHIJKLMNOPQRSTUVWXYZabcdefghijklmnopqrstuvwxyz0123456789-_".toList

/-- Alphabet lookup for a 6-bit group. -/
def b64idx (i : Nat) : Char := b64urlChars.getD i 'A'

/-- Unpadded base64url encoding of a byte list
(`base64.urlsafe_b64encode(data).rstrip(b"=")`). -/
def b64url_nopad : List Nat → List Char
  | [] => []
  | [b0] =>
    let x := b0 % 256
    [b64idx (x >>> 2), b64idx ((x % 4) <<< 4)]
  | [b0, b1] =>
    let x := b0 % 256
    let y := b1 % 256
    [b64idx (x >>> 2), b64idx (((x % 4) <<< 4) ||| (y >>> 4)), b64idx ((y % 16) <<< 2)]
  | b0 :: b1 :: b2 :: rest =>
    let x := b0 % 256
    let y := b1 % 256
    let z := b2 % 256
    b64idx (x >>> 2) :: b64idx (((x % 4) <<< 4) ||| (y >>> 4)) ::
      b64idx (((y % 16) <<< 2) ||| (z >>> 6)) :: b64idx (z % 64) :: b64url_nopad rest

/-- Modelled from the spec: `_generate_pkce` lives in
`src/oauth_cli_kit/pkce.py`, which is absent from the source tree (only
its import in `flow.py` and its tests are present).  Per §4.1 and §8 of
the spec it base64url-encodes at least 32 random bytes without padding as
the verifier and computes the challenge as the unpadded base64url of the
SHA-256 of the verifier's UTF-8 bytes.  The random bytes are passed in as
`entropy`; the verifier's characters are ASCII, so its UTF-8 bytes are
its character codes. -/
def generate_pkce (entropy : List Nat) : String × String :=
  let verifier := String.mk (b64url_nopad entropy)
  let challenge := String.mk (b64url_nopad (sha256 (verifier.data.map Char.toNat)))
  (verifier, challenge)

theorem getD_mem_or_default {α : Type} (l : List α) (i : Nat) (d : α) :
    l.getD i d ∈ l ∨ l.getD i d = d := by
  induction l generalizing i with
  | nil => right; rfl
  | cons hd tl ih =>
    cases i with
    | zero => left; exact List.mem_cons_self hd tl
    | succ n =>
      rcases ih n with h | h
      · left; exact List.mem_cons_of_mem hd h
      · right; exact h

/-- Every alphabet lookup yields a character other than `=`. -/
theorem b64idx_ne_pad (i : Nat) : b64idx i ≠ '=' := by
  rcases getD_mem_or_default b64urlChars i 'A' with h | h
  · intro he
    rw [b64idx] at he
    rw [he] at h
    exact absurd h (by decide)
  · intro he
    rw [b64idx] at he
    rw [he] at h
    exact absurd h (by decide)

/-- No output of the unpadded base64url encoder contains `=`. -/
theorem b64url_nopad_no_pad (bs : List Nat) : '=' ∉ b64url_nopad bs := by
  induction bs using b64url_nopad.induct with
  | case1 => simp [b64url_nopad]
  | case2 b0 =>
    intro hmem
    simp only [b64url_nopad, List.mem_cons, List.not_mem_nil, or_false] at hmem
    rcases hmem with h | h <;> exact b64idx_ne_pad _ h.symm
  | case3 b0 b1 =>
    intro hmem
    simp only [b64url_nopad, List.mem_cons, List.not_mem_nil, or_false] at hmem
    rcases hmem with h | h | h <;> exact b64idx_ne_pad _ h.symm
  | case4 b0 b1 b2 rest ih =>
    intro hmem
    simp only [b64url_nopad, List.mem_cons] at hmem
    rcases hmem with h | h | h | h | h
    · exact b64idx_ne_pad _ h.symm
    · exact b64idx_ne_pad _ h.symm
    · exact b64idx_ne_pad _ h.symm
    · exact b64idx_ne_pad _ h.symm
    · exact ih h

/-- C5: for a verifier generated from at least 32 random bytes, the
verifier is the unpadded base64url of those bytes, the challenge is the
unpadded base64url of the SHA-256 of the verifier's bytes, and neither
string contains an `=` character. -/
theorem c5_pkce_pair (entropy : List Nat) (hlen : 32 ≤ entropy.length) :
    (generate_pkce entropy).1 = String.mk (b64url_nopad entropy) ∧
    (generate_pkce entropy).2 =
      String.mk (b64url_nopad (sha256 ((generate_pkce entropy).1.data.map Char.toNat))) ∧
    '=' ∉ (generate_pkce entropy).1.data ∧
    '=' ∉ (generate_pkce entropy).2.data :=
  ⟨rfl, rfl, b64url_nopad_no_pad entropy, b64url_nopad_no_pad _⟩

theorem c5_pkce_pair_witness :
    (generate_pkce (List.range 32)).1 = String.mk (b64url_nopad (List.range 32)) ∧
    (generate_pkce (List.range 32)).2 =
      String.mk (b64url_nopad
        (sha256 ((generate_pkce (List.range 32)).1.data.map Char.toNat))) ∧
    '=' ∉ (generate_pkce (List.range 32)).1.data ∧
    '=' ∉ (generate_pkce (List.range 32)).2.data :=
  c5_pkce_pair (List.range 32) (by decide)

/-! Manual input parsing.  `_parse_authorization_input` also lives in the
absent `src/oauth_cli_kit/pkce.py`, so it is modelled from the spec
(§4.5): four syntaxes tried in order — (a) a full URL with a query string
carrying `code`/`state` parameters, (b) a bare query string, (c) the
legacy `code#state` form, (d) a bare code — with unparseable or empty
input yielding `(None, None)` and no exceptions.  Strings are processed
as character lists; a full URL is recognised by the presence of `?`, a
bare query string by `=`, the legacy form by `#`. -/

/-- Split a character list on a separator (like `str.split`). -/
def splitOnC (sep : Char) : List Char → List (List Char)
  | [] => [[]]
  | c :: rest =>
    if c = sep then [] :: splitOnC sep rest
    else (splitOnC sep rest).modifyHead (fun h => c :: h)

theorem splitOnC_of_not_mem (sep : Char) (l : List Char) (h : sep ∉ l) :
    splitOnC sep l = [l] := by
  induction l with
  | nil => rfl
  | cons c rest ih =>
    have hc : ¬ c = sep := fun he => h (he ▸ List.mem_cons_self c rest)
    have hr : splitOnC sep rest = [rest] :=
      ih (fun hm => h (List.mem_cons_of_mem c hm))
    simp [splitOnC, hc, hr]

theorem splitOnC_append (sep : Char) (xs ys : List Char) (h : sep ∉ xs) :
    splitOnC sep (xs ++ sep :: ys) = xs :: splitOnC sep ys := by
  induction xs with
  | nil => simp [splitOnC]
  | cons c rest ih =>
    have hc : ¬ c = sep := fun he => h (he ▸ List.mem_cons_self c rest)
    have hr := ih (fun hm => h (List.mem_cons_of_mem c hm))
    rw [List.cons_append]
    simp only [splitOnC, if_neg hc, hr, List.modifyHead_cons]

/-- Drop everything up to and including the first `?` (isolating a URL's
query string). -/
def dropThroughQ : List Char → List Char
  | [] => []
  | c :: rest => if c = '?' then rest else dropThroughQ rest

theorem dropThroughQ_append (xs ys : List Char) (h : '?' ∉ xs) :
    dropThroughQ (xs ++ '?' :: ys) = ys := by
  induction xs with
  | nil => simp [dropThroughQ]
  | cons c rest ih =>
    have hc : ¬ c = '?' := fun he => h (he ▸ List.mem_cons_self c rest)
    have hr := ih (fun hm => h (List.mem_cons_of_mem c hm))
    rw [List.cons_append]
    simp only [dropThroughQ, if_neg hc]
    exact hr

/-- One `k=v` component of a query string. -/
def pairOfPart (part : List Char) : Option (List Char × List Char) :=
  match splitOnC '=' part with
  | [k, v] => some (k, v)
  | _ => none

/-- The key/value pairs of a query string. -/
def queryPairs (l : List Char) : List (List Char × List Char) :=
  (splitOnC '&' l).filterMap pairOfPart

/-- First-match lookup of a query parameter. -/
def lookupP (key : List Char) : List (List Char × List Char) → Option (List Char)
  | [] => none
  | (k, v) :: rest => if k = key then some v else lookupP key rest

/-- Extract the `code` and `state` parameters of a query string. -/
def parse_query (l : List Char) : Option (List Char) × Option (List Char) :=
  (lookupP "code".data (queryPairs l), lookupP "state".data (queryPairs l))

/-- The four-syntax dispatch of §4.5 on a character list. -/
def parse_auth_core (l : List Char) : Option (List Char) × Option (List Char) :=
  if l = [] then (none, none)
  else if '?' ∈ l then parse_query (dropThroughQ l)
  else if '=' ∈ l then parse_query l
  else if '#' ∈ l then
    match splitOnC '#' l with
    | [c, s] => (some c, some s)
    | _ => (none, none)
  else (some l, none)

/-- Modelled from the spec: `_parse_authorization_input` from the absent
`src/oauth_cli_kit/pkce.py`, per §4.5 — extract `(code, state)` from a
full callback URL, a bare query string, the legacy `code#state` form, or
a bare code, in that order; empty or unparseable input gives
`(none, none)`.  A total function: it never raises. -/
def parse_authorization_input (raw : String) : Option String × Option String :=
  ((parse_auth_core raw.data).1.map String.mk, (parse_auth_core raw.data).2.map String.mk)

/-- The character list `state=` followed by a state value. -/
def qtail (st : List Char) : List Char :=
  's' :: 't' :: 'a' :: 't' :: 'e' :: '=' :: st

/-- The character list `code=C&state=S`. -/
def qlist (c st : List Char) : List Char :=
  'c' :: 'o' :: 'd' :: 'e' :: '=' :: (c ++ '&' :: qtail st)

/-- A token value free of the parser's meta-characters. -/
def CleanTok (l : List Char) : Prop :=
  ∀ ch ∈ l, ch ≠ '?' ∧ ch ≠ '&' ∧ ch ≠ '=' ∧ ch ≠ '#'

theorem parse_query_qlist (c st : List Char) (hc : CleanTok c) (hs : CleanTok st) :
    parse_query (qlist c st) = (some c, some st) := by
  have hamp1 : '&' ∉ ('c' :: 'o' :: 'd' :: 'e' :: '=' :: c) := by
    intro h
    simp at h
    exact (hc _ h).2.1 rfl
  have hamp2 : '&' ∉ qtail st := by
    intro h
    simp [qtail] at h
    exact (hs _ h).2.1 rfl
  have heq1 : '=' ∉ (['c', 'o', 'd', 'e'] : List Char) := by decide
  have heq2 : '=' ∉ c := fun h => (hc _ h).2.2.1 rfl
  have heq3 : '=' ∉ (['s', 't', 'a', 't', 'e'] : List Char) := by decide
  have heq4 : '=' ∉ st := fun h => (hs _ h).2.2.1 rfl
  have hsplit : splitOnC '&' (qlist c st) =
      ('c' :: 'o' :: 'd' :: 'e' :: '=' :: c) :: [qtail st] := by
    have h : qlist c st = ('c' :: 'o' :: 'd' :: 'e' :: '=' :: c) ++ '&' :: qtail st := rfl
    rw [h, splitOnC_append _ _ _ hamp1, splitOnC_of_not_mem _ _ hamp2]
  have hpair1 : pairOfPart ('c' :: 'o' :: 'd' :: 'e' :: '=' :: c) =
      some (['c', 'o', 'd', 'e'], c) := by
    have h : ('c' :: 'o' :: 'd' :: 'e' :: '=' :: c) = ['c', 'o', 'd', 'e'] ++ '=' :: c := rfl
    rw [pairOfPart, h, splitOnC_append _ _ _ heq1, splitOnC_of_not_mem _ _ heq2]
  have hpair2 : pairOfPart (qtail st) = some (['s', 't', 'a', 't', 'e'], st) := by
    have h : qtail st = ['s', 't', 'a', 't', 'e'] ++ '=' :: st := rfl
    rw [pairOfPart, h, splitOnC_append _ _ _ heq3, splitOnC_of_not_mem _ _ heq4]
  have hqp : queryPairs (qlist c st) =
      [(['c', 'o', 'd', 'e'], c), (['s', 't', 'a', 't', 'e'], st)] := by
    rw [queryPairs, hsplit]
    simp [List.filterMap, hpair1, hpair2]
  rw [parse_query, hqp]
  rfl

theorem no_q_in_qlist (c st : List Char) (hc : CleanTok c) (hs : CleanTok st) :
    '?' ∉ qlist c st := by
  intro h
  simp [qlist, qtail] at h
  rcases h with h | h
  · exact (hc _ h).1 rfl
  · exact (hs _ h).1 rfl

theorem parse_core_url (u c st : List Char) (hu : '?' ∉ u)
    (hc : CleanTok c) (hs : CleanTok st) :
    parse_auth_core (u ++ '?' :: qlist c st) = (some c, some st) := by
  have hmem : '?' ∈ u ++ '?' :: qlist c st := by simp
  have hne : u ++ '?' :: qlist c st ≠ [] := List.ne_nil_of_mem hmem
  rw [parse_auth_core, if_neg hne, if_pos hmem, dropThroughQ_append _ _ hu]
  exact parse_query_qlist c st hc hs

theorem parse_core_query (c st : List Char) (hc : CleanTok c) (hs : CleanTok st) :
    parse_auth_core (qlist c st) = (some c, some st) := by
  have hmem : '=' ∈ qlist c st := by simp [qlist]
  have hne : qlist c st ≠ [] := by simp [qlist]
  rw [parse_auth_core, if_neg hne, if_neg (no_q_in_qlist c st hc hs), if_pos hmem]
  exact parse_query_qlist c st hc hs

theorem parse_core_hash (c st : List Char) (hc : CleanTok c) (hs : CleanTok st) :
    parse_auth_core (c ++ '#' :: st) = (some c, some st) := by
  have hmem : '#' ∈ c ++ '#' :: st := by simp
  have hne : c ++ '#' :: st ≠ [] := List.ne_nil_of_mem hmem
  have hq : '?' ∉ c ++ '#' :: st := by
    intro h
    simp at h
    rcases h with h | h
    · exact (hc _ h).1 rfl
    · exact (hs _ h).1 rfl
  have he : '=' ∉ c ++ '#' :: st := by
    intro h
    simp at h
    rcases h with h | h
    · exact (hc _ h).2.2.1 rfl
    · exact (hs _ h).2.2.1 rfl
  have hhash : '#' ∉ c := fun h => (hc _ h).2.2.2 rfl
  have hhash2 : '#' ∉ st := fun h => (hs _ h).2.2.2 rfl
  rw [parse_auth_core, if_neg hne, if_neg hq, if_neg he, if_pos hmem,
    splitOnC_append _ _ _ hhash, splitOnC_of_not_mem _ _ hhash2]

theorem parse_core_bare (c : List Char) (hne : c ≠ []) (hc : CleanTok c) :
    parse_auth_core c = (some c, none) := by
  have hq : '?' ∉ c := fun h => (hc _ h).1 rfl
  have he : '=' ∉ c := fun h => (hc _ h).2.2.1 rfl
  have hh : '#' ∉ c := fun h => (hc _ h).2.2.2 rfl
  rw [parse_auth_core, if_neg hne, if_neg hq, if_neg he, if_neg hh]

theorem str_data_append (a b : String) : (a ++ b).data = a.data ++ b.data := rfl

/-- A non-empty string free of the parser's meta-characters. -/
def CleanStr (s : String) : Prop := s ≠ "" ∧ CleanTok s.data

/-- C6: the manual input parser maps a full callback URL with `code` and
`state` query parameters to `(code, state)`, a bare query string to
`(code, state)`, the legacy `C#S` form to `(C, S)`, a bare code `C` to
`(C, none)`, and empty input to `(none, none)` — for any URL head without
`?` and any code/state values free of the parser's meta-characters.  The
parser is a total function, so it never raises. -/
theorem c6_manual_input_shapes (u c st : String) (hu : '?' ∉ u.data)
    (hc : CleanStr c) (hs : CleanStr st) :
    parse_authorization_input (u ++ "?code=" ++ c ++ "&state=" ++ st) = (some c, some st) ∧
    parse_authorization_input ("code=" ++ c ++ "&state=" ++ st) = (some c, some st) ∧
    parse_authorization_input (c ++ "#" ++ st) = (some c, some st) ∧
    parse_authorization_input c = (some c, none) ∧
    parse_authorization_input "" = (none, none) := by
  have hd1 : (u ++ "?code=" ++ c ++ "&state=" ++ st).data =
      u.data ++ '?' :: qlist c.data st.data := by
    simp [str_data_append, qlist, qtail]
  have hd2 : ("code=" ++ c ++ "&state=" ++ st).data = qlist c.data st.data := by
    simp [str_data_append, qlist, qtail]
  have hd3 : (c ++ "#" ++ st).data = c.data ++ '#' :: st.data := by
    simp [str_data_append]
  refine ⟨?_, ?_, ?_, ?_, rfl⟩
  · rw [parse_authorization_input, hd1,
      parse_core_url u.data c.data st.data hu hc.2 hs.2]
    rfl
  · rw [parse_authorization_input, hd2, parse_core_query c.data st.data hc.2 hs.2]
    rfl
  · rw [parse_authorization_input, hd3, parse_core_hash c.data st.data hc.2 hs.2]
    rfl
  · have hne : c.data ≠ [] := by
      intro h
      apply hc.1
      cases c
      simp_all
    rw [parse_authorization_input, parse_core_bare c.data hne hc.2]
    rfl

theorem c6_manual_input_shapes_witness :
    parse_authorization_input
        ("http://localhost:1455/auth/callback" ++ "?code=" ++ "abc123" ++ "&state=" ++ "st") =
      (some "abc123", some "st") ∧
    parse_authorization_input ("code=" ++ "abc123" ++ "&state=" ++ "st") =
      (some "abc123", some "st") ∧
    parse_authorization_input ("abc123" ++ "#" ++ "st") = (some "abc123", some "st") ∧
    parse_authorization_input "abc123" = (some "abc123", none) ∧
    parse_authorization_input "" = (none, none) :=
  c6_manual_input_shapes "http://localhost:1455/auth/callback" "abc123" "st"
    (by decide) ⟨by decide, by unfold CleanTok; decide⟩
    ⟨by decide, by unfold CleanTok; decide⟩

/-! The login orchestrator's code-acquisition step
(`login_oauth_interactive`, `src/oauth_cli_kit/flow.py` lines 208-249):
the race winner is processed, then — when no truthy code was obtained —
the blocking prompt is used as the sole source, and the resulting code is
handed to the token exchange. -/

/-- A result delivered by one of the two raced sources: the local
callback listener delivers a single code string through the `_notify`
callback (flow.py lines 187-190, 236); the manual-input task delivers the
raw line read from stdin (lines 216, 230-234). -/
inductive Candidate where
  | fromListener (codeValue : String)
  | fromManual (raw : String)

/-- Python truthiness of an optional code string (`if code:`). -/
def truthyOptStr : Option String → Bool
  | none => false
  | some s => decide (s ≠ "")

/-- The `for task in done` loop body (flow.py lines 223-238) applied to
the race winner (`none` models a timed-out or empty result, line 226-229):
a listener result is taken as the code with no state comparison; a manual
result is parsed, its state — when truthy — compared against the flow's
state (mismatch raises `State validation failed.`), and its code taken. -/
def process_winner (flowState : String) (winner : Option Candidate) :
    Except String (Option String) :=
  match winner with
  | none => Except.ok none
  | some (Candidate.fromListener v) =>
    if v = "" then Except.ok none else Except.ok (some v)
  | some (Candidate.fromManual raw) =>
    if raw = "" then Except.ok none
    else
      match parse_authorization_input raw with
      | (pc, some s) =>
        if s ≠ "" ∧ s ≠ flowState then Except.error "State validation failed."
        else Except.ok pc
      | (pc, none) => Except.ok pc

/-- The fallback prompt (flow.py lines 240-249): parse the prompted
input, compare a truthy parsed state with the flow's state, and fail with
`Authorization code not found.` when no truthy code results. -/
def prompt_for_code (flowState : String) (promptRaw : String) : Except String String :=
  match parse_authorization_input promptRaw with
  | (pc, some s) =>
    if s ≠ "" ∧ s ≠ flowState then Except.error "State validation failed."
    else if truthyOptStr pc then Except.ok (pc.getD "")
    else Except.error "Authorization code not found."
  | (pc, none) =>
    if truthyOptStr pc then Except.ok (pc.getD "")
    else Except.error "Authorization code not found."

/-- Lines 208-252 of flow.py as one function: process the race winner,
fall through to the prompt when no truthy code was obtained, and return
the code that is passed to the token exchange (`Except.ok`) or the raised
error (`Except.error`). -/
def login_obtain_code (flowState : String) (winner : Option Candidate)
    (promptRaw : String) : Except String String :=
  match process_winner flowState winner with
  | Except.error e => Except.error e
  | Except.ok code? =>
    if truthyOptStr code? then Except.ok (code?.getD "")
    else prompt_for_code flowState promptRaw

/-- Modelled from the spec: `_start_local_server` lives in
`src/oauth_cli_kit/server.py`, which is absent from the source tree.  Per
§4.4 the listener extracts `code` and `state` from the single callback
request and performs no state validation itself; in `flow.py` the
`on_code` callback `_notify` (lines 187-190) has signature
`(code_value: str)`, so only the callback's code reaches the
orchestrator and the callback's state value is dropped. -/
def listener_deliver (cbCode cbState : String) : String := cbCode

/-- C1 counterexample: a browser callback carrying state `WRONG` while the
flow's state is `st` still results in the orchestrator invoking the token
exchange with the delivered code `abc` — the flow does not fail with a
state-mismatch error, because the orchestrator performs no state
comparison on the listener path (flow.py line 236 uses the listener result
directly as the code). -/
theorem c1_listener_state_unchecked :
    listener_deliver "abc" "WRONG" = "abc" ∧
    ("WRONG" : String) ≠ "st" ∧
    login_obtain_code "st"
        (some (Candidate.fromListener (listener_deliver "abc" "WRONG"))) "" =
      Except.ok "abc" :=
  ⟨rfl, by decide, rfl⟩

/-- C1 (amended): the orchestrator itself compares the states of
manual-path candidates — both the raced manual input and the fallback
prompt — against the flow's state before any exchange, and a truthy
mismatching state fails the flow with `State validation failed.` so that
no exchange happens on that path; listener-delivered candidates, however,
reach the exchange as-is: the orchestrator receives only a code string
from the listener and performs no state comparison on it (listener-side
state validation is delegated to the local server, which is started with
the flow's state). -/
theorem c1_state_validation_paths (flowState raw promptRaw v : String) :
    (∀ pc s, raw ≠ "" → parse_authorization_input raw = (pc, some s) →
      s ≠ "" → s ≠ flowState →
      login_obtain_code flowState (some (Candidate.fromManual raw)) promptRaw =
        Except.error "State validation failed.") ∧
    (∀ pc s, parse_authorization_input promptRaw = (pc, some s) →
      s ≠ "" → s ≠ flowState →
      login_obtain_code flowState none promptRaw =
        Except.error "State validation failed.") ∧
    (v ≠ "" → ∀ cbState : String,
      login_obtain_code flowState
          (some (Candidate.fromListener (listener_deliver v cbState))) promptRaw =
        Except.ok v) := by
  refine ⟨fun pc s hraw hparse hs hsf => ?_, fun pc s hparse hs hsf => ?_,
    fun hv cbState => ?_⟩
  · simp [login_obtain_code, process_winner, hraw, hparse, hs, hsf]
  · simp [login_obtain_code, process_winner, prompt_for_code, truthyOptStr,
      hparse, hs, hsf]
  · simp [login_obtain_code, process_winner, listener_deliver, hv, truthyOptStr]

theorem c1_state_validation_paths_witness :
    login_obtain_code "st" (some (Candidate.fromManual "code=abc123&state=BAD")) "" =
      Except.error "State validation failed." ∧
    login_obtain_code "st" none "code=abc123&state=BAD" =
      Except.error "State validation failed." ∧
    login_obtain_code "st" (some (Candidate.fromListener (listener_deliver "abc" "WRONG"))) "" =
      Except.ok "abc" :=
  ⟨((c1_state_validation_paths "st" "code=abc123&state=BAD" "code=abc123&state=BAD" "abc").1
      (some "abc123") "BAD" (by decide) rfl (by decide) (by decide)),
   ((c1_state_validation_paths "st" "code=abc123&state=BAD" "code=abc123&state=BAD" "abc").2.1
      (some "abc123") "BAD" rfl (by decide) (by decide)),
   ((c1_state_validation_paths "st" "code=abc123&state=BAD" "code=abc123&state=BAD" "abc").2.2
      (by decide) "WRONG")⟩

end OAuthCliKit
